import Mathlib

/-!
Verification of the soil-water-characteristic estimator
(`environmental_biophysics/soil.py`).

The Saxton & Rawls (2006) texture regressions and the bulk-density /
saturation formulas are exact rational arithmetic, so they are embedded
over `ℚ` (computable, decidable). The Campbell (1985) retention-curve
functions use `math.log` and fractional real powers, so they are embedded
over `ℝ` with `Real.log` and `Real.rpow`; Python runtime failures
(`math.log` on a nonpositive argument, float division by zero, a failed
`assert`) are made explicit with an `Except` result.
-/

namespace Soil

/-- Runtime failures of the Python source, one constructor per kind:
`domainError` models `ValueError: math domain error` raised by `math.log`
on a nonpositive argument; `zeroDivisionError` models `ZeroDivisionError`
(a subclass of Python's `ArithmeticError`) raised by float division by
zero; `assertionError` models a failed `assert` statement guarding
arguments. -/
inductive PyError where
  | domainError
  | zeroDivisionError
  | assertionError
  deriving DecidableEq, Repr

/-- Mineral soil particle density constant `MIN_SOIL_PARTICLE_DENS = 2.65`
(Mg/m3). -/
def MIN_SOIL_PARTICLE_DENS : ℚ := 2.65

/-- `vol_water_content_33_j_kg(clay, sand, organic_matter)`: volumetric
water content at -33 J/kg (field capacity), Saxton & Rawls eq. 2. -/
def vol_water_content_33_j_kg (clay sand organic_matter : ℚ) : ℚ :=
  let x1 := 0.299 - 0.251 * sand + 0.195 * clay + 0.011 * organic_matter + 0.006 * sand * organic_matter - 0.027 * clay * organic_matter + 0.452 * sand * clay;
  -0.015 + 0.636 * x1 + 1.283 * x1 ^ 2

/-- `vol_water_content_1500_jkg(clay, sand, organic_matter)`: volumetric
water content at -1500 J/kg (wilting point), Saxton & Rawls eq. 1. -/
def vol_water_content_1500_jkg (clay sand organic_matter : ℚ) : ℚ :=
  let x1 := 0.031 - 0.024 * sand + 0.487 * clay + 0.006 * organic_matter + 0.005 * sand * organic_matter - 0.013 * clay * organic_matter + 0.068 * sand * clay;
  -0.02 + 1.14 * x1

/-- The saturated-water-content estimate computed inline in
`get_bulk_density` (the local variable `sat_water_content` of the source,
extracted as a top-level definition): `0.043 + field_capacity + x2 - 0.097
* sand` with `x2 = -0.107 + 1.636 * x1`. -/
def sat_water_content_inline (clay sand organic_matter : ℚ) : ℚ :=
  let x1 := 0.078 + 0.278 * sand + 0.034 * clay + 0.022 * organic_matter - 0.018 * sand * organic_matter - 0.027 * clay * organic_matter - 0.584 * sand * clay
  let x2 := -0.107 + 1.636 * x1
  let field_capacity := vol_water_content_33_j_kg clay sand organic_matter
  0.043 + field_capacity + x2 - 0.097 * sand

/-- `get_bulk_density(clay, sand, organic_matter)`: bulk density (Mg/m3),
`(1 - sat_water_content) * MIN_SOIL_PARTICLE_DENS` where
`sat_water_content` is the inline estimate. -/
def get_bulk_density (clay sand organic_matter : ℚ) : ℚ :=
  (1 - sat_water_content_inline clay sand organic_matter) * MIN_SOIL_PARTICLE_DENS

/-- `sat_water_content(bulk_density) = 1 - bulk_density /
MIN_SOIL_PARTICLE_DENS`. The source performs no domain check on
`bulk_density`; the function is total. -/
def sat_water_content (bulk_density : ℚ) : ℚ :=
  1 - bulk_density / MIN_SOIL_PARTICLE_DENS

/-- Modelled from the spec: the SaturationEstimator contract of §4.4,
which this repository's code does not implement — it demands a
`DomainError` when `bulk_density ≤ 0` or `bulk_density ≥ 2.65` and
otherwise returns `1 - bulk_density / 2.65`. Used only to exhibit the
divergence from the unguarded source function. -/
def sat_water_content_spec (bulk_density : ℚ) : Except PyError ℚ :=
  if bulk_density ≤ 0 ∨ MIN_SOIL_PARTICLE_DENS ≤ bulk_density then
    Except.error PyError.domainError
  else
    Except.ok (1 - bulk_density / MIN_SOIL_PARTICLE_DENS)

/-- Python's `math.log`: returns the natural logarithm of a positive
argument and raises `ValueError: math domain error` otherwise. -/
noncomputable def mathLog (x : ℝ) : Except PyError ℝ :=
  if 0 < x then Except.ok (Real.log x) else Except.error PyError.domainError

/-- Python's float division: raises `ZeroDivisionError` when the
denominator is zero. -/
noncomputable def pyDiv (a b : ℝ) : Except PyError ℝ :=
  if b = 0 then Except.error PyError.zeroDivisionError else Except.ok (a / b)

/-- `b_value(water_content_33_j_kg, water_content_1500_j_kg)`: Campbell
shape parameter `(log 1500 - log 33) / (log wc33 - log wc1500)`, with
Python's `math.log` and division failures propagated. -/
noncomputable def b_value (water_content_33_j_kg water_content_1500_j_kg : ℝ) :
    Except PyError ℝ :=
  match mathLog water_content_33_j_kg with
  | Except.error e => Except.error e
  | Except.ok l33 =>
    match mathLog water_content_1500_j_kg with
    | Except.error e => Except.error e
    | Except.ok l1500 => pyDiv (Real.log 1500 - Real.log 33) (l33 - l1500)

/-- `air_entry_pot(field_capacity, sat_water_content, b_value) = -33 *
(field_capacity / sat_water_content) ** b_value`. -/
noncomputable def air_entry_pot (field_capacity sat_water_content b_value : ℝ) : ℝ :=
  -33 * (field_capacity / sat_water_content) ^ b_value

/-- Arithmetic of `water_potential`: `air_entry_potential *
(sat_water_content / water_content) ** campbell_b` (Campbell eq. 5.9). -/
noncomputable def water_potential
    (sat_water_content air_entry_potential campbell_b water_content : ℝ) : ℝ :=
  air_entry_potential * (sat_water_content / water_content) ^ campbell_b

/-- `water_potential` with its two `assert` guards: the source asserts
`sat_water_content > 0` and then `water_content > 0` before evaluating the
arithmetic, so a violating call fails instead of returning a value. -/
noncomputable def water_potential_checked
    (sat_water_content air_entry_potential campbell_b water_content : ℝ) :
    Except PyError ℝ :=
  if 0 < sat_water_content then
    if 0 < water_content then
      Except.ok (water_potential sat_water_content air_entry_potential
        campbell_b water_content)
    else Except.error PyError.assertionError
  else Except.error PyError.assertionError

/-- `water_content(sat_water_content, air_entry_potential, campbell_b,
water_potential) = sat_water_content * (water_potential /
air_entry_potential) ** (-1 / campbell_b)` (Campbell p. 80); the source
has no guards here. -/
noncomputable def water_content
    (sat_water_content air_entry_potential campbell_b water_potential : ℝ) : ℝ :=
  sat_water_content * (water_potential / air_entry_potential) ^ (-1 / campbell_b)

/-- Helper: for `0 < w1500 < w33` the shape-parameter computation succeeds
and its value is strictly positive. -/
theorem b_value_ok_pos (w33 w1500 : ℝ) (h15 : 0 < w1500) (h33 : w1500 < w33) :
    ∃ r : ℝ, b_value w33 w1500 = Except.ok r ∧ 0 < r := by
  have h33p : 0 < w33 := h15.trans h33
  have hd : 0 < Real.log w33 - Real.log w1500 :=
    sub_pos.mpr (Real.log_lt_log h15 h33)
  have hn : 0 < Real.log 1500 - Real.log 33 :=
    sub_pos.mpr (Real.log_lt_log (by norm_num) (by norm_num))
  refine ⟨(Real.log 1500 - Real.log 33) / (Real.log w33 - Real.log w1500),
    ?_, div_pos hn hd⟩
  simp [b_value, mathLog, pyDiv, h33p, h15, hd.ne']

/-- C1: for θs > 0, ψe < 0, b > 0 and 0 < θ ≤ θs, converting a water
content to a potential with `water_potential` and back with
`water_content` yields the original content (exactly, over ℝ). -/
theorem retention_roundtrip (θs ψe b θ : ℝ) (hθs : 0 < θs) (hψe : ψe < 0)
    (hb : 0 < b) (hθ : 0 < θ) (_hθθs : θ ≤ θs) :
    water_content θs ψe b (water_potential θs ψe b θ) = θ := by
  unfold water_content water_potential
  rw [mul_div_cancel_left₀ _ hψe.ne]
  rw [← Real.rpow_mul (div_pos hθs hθ).le]
  have hbb : b * (-1 / b) = -1 := by field_simp
  rw [hbb, Real.rpow_neg_one, inv_div]
  field_simp

/-- C1 witness: round trip at θs = 1/2, ψe = -3/2, b = 5, θ = 1/4. -/
theorem retention_roundtrip_witness :
    water_content (1 / 2) (-3 / 2) 5 (water_potential (1 / 2) (-3 / 2) 5 (1 / 4)) =
      1 / 4 :=
  retention_roundtrip (1 / 2) (-3 / 2) 5 (1 / 4) (by norm_num) (by norm_num)
    (by norm_num) (by norm_num) (by norm_num)

/-- C2 counterexample: the texture clay = 1, sand = 0, organic matter = 46
is valid under the claim's hypotheses (clay, sand ∈ [0,1], clay + sand ≤ 1,
organic matter ≥ 0), yet the claimed conjunction fails there: the wilting
point estimate (≈ 0.203) exceeds the field-capacity estimate (≈ -0.094). -/
theorem derived_ordering_cex :
    ((0 : ℚ) ≤ 1 ∧ (1 : ℚ) ≤ 1) ∧ ((0 : ℚ) ≤ 0 ∧ (0 : ℚ) ≤ 1) ∧
    ((1 : ℚ) + 0 ≤ 1) ∧ ((0 : ℚ) ≤ 46) ∧
    ¬ (vol_water_content_1500_jkg 1 0 46 < vol_water_content_33_j_kg 1 0 46 ∧
       vol_water_content_33_j_kg 1 0 46 <
         sat_water_content (get_bulk_density 1 0 46) ∧
       sat_water_content (get_bulk_density 1 0 46) < 1 ∧
       ∃ r : ℝ,
         b_value ((vol_water_content_33_j_kg 1 0 46 : ℚ) : ℝ)
           ((vol_water_content_1500_jkg 1 0 46 : ℚ) : ℝ) = Except.ok r ∧
         0 < r) := by
  refine ⟨⟨by norm_num, le_refl _⟩, ⟨le_refl _, by norm_num⟩, by norm_num,
    by norm_num, fun h => ?_⟩
  have h1 := h.1
  norm_num [vol_water_content_1500_jkg, vol_water_content_33_j_kg] at h1

/-- C2 (amended): for textures within the calibration range of the source
regressions — here the spec's own scenario texture clay = 0.03,
sand = 0.92, organic matter = 1.906 — the derived quantities satisfy
0 < wilting point < field capacity < saturated water content < 1, and the
shape-parameter computation succeeds with a strictly positive value. -/
theorem derived_ordering_calibration :
    0 < vol_water_content_1500_jkg (3 / 100) (92 / 100) (1906 / 1000) ∧
    vol_water_content_1500_jkg (3 / 100) (92 / 100) (1906 / 1000) <
      vol_water_content_33_j_kg (3 / 100) (92 / 100) (1906 / 1000) ∧
    vol_water_content_33_j_kg (3 / 100) (92 / 100) (1906 / 1000) <
      sat_water_content (get_bulk_density (3 / 100) (92 / 100) (1906 / 1000)) ∧
    sat_water_content (get_bulk_density (3 / 100) (92 / 100) (1906 / 1000)) < 1 ∧
    ∃ r : ℝ,
      b_value ((vol_water_content_33_j_kg (3 / 100) (92 / 100) (1906 / 1000) : ℚ) : ℝ)
        ((vol_water_content_1500_jkg (3 / 100) (92 / 100) (1906 / 1000) : ℚ) : ℝ) =
        Except.ok r ∧ 0 < r := by
  have h15 : (0 : ℚ) < vol_water_content_1500_jkg (3 / 100) (92 / 100) (1906 / 1000) := by
    norm_num [vol_water_content_1500_jkg]
  have h3315 : vol_water_content_1500_jkg (3 / 100) (92 / 100) (1906 / 1000) <
      vol_water_content_33_j_kg (3 / 100) (92 / 100) (1906 / 1000) := by
    norm_num [vol_water_content_1500_jkg, vol_water_content_33_j_kg]
  refine ⟨h15, h3315, ?_, ?_,
    b_value_ok_pos _ _ (by exact_mod_cast h15) (by exact_mod_cast h3315)⟩
  · norm_num [vol_water_content_33_j_kg, sat_water_content, get_bulk_density,
      sat_water_content_inline, MIN_SOIL_PARTICLE_DENS]
  · norm_num [sat_water_content, get_bulk_density, sat_water_content_inline,
      vol_water_content_33_j_kg, MIN_SOIL_PARTICLE_DENS]

/-- C3: `b_value` fails with the math-domain error when either water
content is nonpositive, fails with the division-by-zero error (Python's
`ZeroDivisionError`, a subclass of `ArithmeticError`) when the two
contents are equal and positive, and for positive unequal contents returns
`(log 1500 - log 33) / (log wc33 - log wc1500)`. -/
theorem b_value_cases (w33 w1500 : ℝ) :
    ((w33 ≤ 0 ∨ w1500 ≤ 0) → b_value w33 w1500 = Except.error PyError.domainError) ∧
    (0 < w33 → 0 < w1500 → w33 = w1500 →
      b_value w33 w1500 = Except.error PyError.zeroDivisionError) ∧
    (0 < w33 → 0 < w1500 → w33 ≠ w1500 →
      b_value w33 w1500 =
        Except.ok ((Real.log 1500 - Real.log 33) /
          (Real.log w33 - Real.log w1500))) := by
  refine ⟨?_, ?_, ?_⟩
  · rintro (h | h) <;> unfold b_value mathLog
    · rw [if_neg (not_lt.mpr h)]
    · by_cases h33 : 0 < w33
      · rw [if_pos h33, if_neg (not_lt.mpr h)]
      · rw [if_neg h33]
  · intro h33 h15 heq
    subst heq
    simp [b_value, mathLog, pyDiv, h33]
  · intro h33 h15 hne
    have hlog : Real.log w33 - Real.log w1500 ≠ 0 := by
      rcases hne.lt_or_lt with h | h
      · exact sub_ne_zero.mpr (ne_of_lt (Real.log_lt_log h33 h))
      · exact sub_ne_zero.mpr (ne_of_gt (Real.log_lt_log h15 h))
    simp [b_value, mathLog, pyDiv, h33, h15, hlog]

/-- C3 witness: the three branches at concrete inputs — a nonpositive
content, the spec's equal-points error case (0.1, 0.1), and the spec's
scenario pair (0.08, 0.03). -/
theorem b_value_cases_witness :
    b_value 0 (1 / 10) = Except.error PyError.domainError ∧
    b_value (1 / 10) (1 / 10) = Except.error PyError.zeroDivisionError ∧
    b_value (8 / 100) (3 / 100) =
      Except.ok ((Real.log 1500 - Real.log 33) /
        (Real.log (8 / 100) - Real.log (3 / 100))) :=
  ⟨(b_value_cases 0 (1 / 10)).1 (Or.inl le_rfl),
   (b_value_cases (1 / 10) (1 / 10)).2.1 (by norm_num) (by norm_num) rfl,
   (b_value_cases (8 / 100) (3 / 100)).2.2 (by norm_num) (by norm_num) (by norm_num)⟩

/-- C4: for 0 < field_capacity < sat_water_content and b > 0,
`air_entry_pot` equals `-33 * (field_capacity / sat_water_content) ^ b`
and lies strictly in the open interval (-33, 0). -/
theorem air_entry_pot_range (fc swc b : ℝ) (h0 : 0 < fc) (h1 : fc < swc)
    (hb : 0 < b) :
    air_entry_pot fc swc b = -33 * (fc / swc) ^ b ∧
    -33 < air_entry_pot fc swc b ∧ air_entry_pot fc swc b < 0 := by
  have hswc : 0 < swc := h0.trans h1
  have hr0 : 0 < fc / swc := div_pos h0 hswc
  have hr1 : fc / swc < 1 := (div_lt_one hswc).mpr h1
  have hp0 : 0 < (fc / swc) ^ b := Real.rpow_pos_of_pos hr0 b
  have hp1 : (fc / swc) ^ b < 1 := Real.rpow_lt_one hr0.le hr1 hb
  refine ⟨rfl, ?_, ?_⟩ <;> unfold air_entry_pot <;> nlinarith

/-- C4 witness: air-entry potential at field_capacity = 1/4,
sat_water_content = 1/2, b = 1. -/
theorem air_entry_pot_range_witness :
    air_entry_pot (1 / 4) (1 / 2) 1 = -33 * ((1 / 4) / (1 / 2)) ^ (1 : ℝ) ∧
    -33 < air_entry_pot (1 / 4) (1 / 2) 1 ∧ air_entry_pot (1 / 4) (1 / 2) 1 < 0 :=
  air_entry_pot_range (1 / 4) (1 / 2) 1 (by norm_num) (by norm_num) (by norm_num)

/-- C5 counterexample: with the valid parameter bundle θs = 1/2,
ψe = -3/2, b = 5 and contents θ1 = 1/4 < θ2 = 1/2 ≤ θs, the potential at
θ1 (-48) is strictly below the potential at θ2 (-3/2), so
`water_potential` is not strictly decreasing in the water content — it is
strictly increasing (drier soil gives the more negative potential). -/
theorem water_potential_not_decreasing :
    (0 : ℝ) < 1 / 2 ∧ (-3 / 2 : ℝ) < 0 ∧ (0 : ℝ) < 5 ∧
    (0 : ℝ) < 1 / 4 ∧ (1 / 4 : ℝ) < 1 / 2 ∧ (1 / 2 : ℝ) ≤ 1 / 2 ∧
    water_potential (1 / 2) (-3 / 2) 5 (1 / 4) <
      water_potential (1 / 2) (-3 / 2) 5 (1 / 2) := by
  refine ⟨by norm_num, by norm_num, by norm_num, by norm_num, by norm_num,
    le_refl _, ?_⟩
  unfold water_potential
  rw [show ((1 : ℝ) / 2) / (1 / 4) = 2 by norm_num,
    show ((1 : ℝ) / 2) / (1 / 2) = 1 by norm_num, Real.one_rpow,
    show (5 : ℝ) = ((5 : ℕ) : ℝ) by norm_num, Real.rpow_natCast]
  norm_num

/-- C5 (amended): for every valid parameter bundle (θs > 0, ψe < 0,
b > 0), `water_potential` is strictly increasing in the water content
argument over (0, θs], and `water_content` is strictly increasing in the
potential argument over ψ ≤ ψe. -/
theorem retention_monotone :
    (∀ θs ψe b θ1 θ2 : ℝ, 0 < θs → ψe < 0 → 0 < b → 0 < θ1 → θ1 < θ2 → θ2 ≤ θs →
      water_potential θs ψe b θ1 < water_potential θs ψe b θ2) ∧
    (∀ θs ψe b ψ1 ψ2 : ℝ, 0 < θs → ψe < 0 → 0 < b → ψ1 < ψ2 → ψ2 ≤ ψe →
      water_content θs ψe b ψ1 < water_content θs ψe b ψ2) := by
  constructor
  · intro θs ψe b θ1 θ2 hθs hψe hb h1 h12 _
    unfold water_potential
    have hθ2 : 0 < θ2 := h1.trans h12
    have hd : θs / θ2 < θs / θ1 := div_lt_div_of_pos_left hθs h1 h12
    have hp : (θs / θ2) ^ b < (θs / θ1) ^ b :=
      Real.rpow_lt_rpow (div_pos hθs hθ2).le hd hb
    exact mul_lt_mul_of_neg_left hp hψe
  · intro θs ψe b ψ1 ψ2 hθs hψe hb h12 h2e
    unfold water_content
    have hψ2 : ψ2 < 0 := lt_of_le_of_lt h2e hψe
    have hx2 : 0 < ψ2 / ψe := div_pos_of_neg_of_neg hψ2 hψe
    have hd : ψ2 / ψe < ψ1 / ψe := div_lt_div_of_neg_of_lt hψe h12
    have hexp : (-1 / b : ℝ) < 0 := div_neg_of_neg_of_pos (by norm_num) hb
    have hp : (ψ1 / ψe) ^ (-1 / b : ℝ) < (ψ2 / ψe) ^ (-1 / b : ℝ) :=
      Real.rpow_lt_rpow_of_neg hx2 hd hexp
    exact mul_lt_mul_of_pos_left hp hθs

/-- C5 witness: both monotonicity directions at θs = 1/2, ψe = -3/2,
b = 5, with contents 1/4 < 1/2 and potentials -48 < -3/2. -/
theorem retention_monotone_witness :
    water_potential (1 / 2) (-3 / 2) 5 (1 / 4) <
      water_potential (1 / 2) (-3 / 2) 5 (1 / 2) ∧
    water_content (1 / 2) (-3 / 2) 5 (-48) <
      water_content (1 / 2) (-3 / 2) 5 (-3 / 2) :=
  ⟨retention_monotone.1 (1 / 2) (-3 / 2) 5 (1 / 4) (1 / 2) (by norm_num)
      (by norm_num) (by norm_num) (by norm_num) (by norm_num) (by norm_num),
   retention_monotone.2 (1 / 2) (-3 / 2) 5 (-48) (-3 / 2) (by norm_num)
      (by norm_num) (by norm_num) (by norm_num) (by norm_num)⟩

/-- C6: applying `sat_water_content` to the output of `get_bulk_density`
returns exactly the inline saturated-water-content estimate computed
inside `get_bulk_density`, for every texture. -/
theorem sat_water_content_equiv (clay sand organic_matter : ℚ) :
    sat_water_content (get_bulk_density clay sand organic_matter) =
      sat_water_content_inline clay sand organic_matter := by
  unfold sat_water_content get_bulk_density MIN_SOIL_PARTICLE_DENS
  rw [mul_div_cancel_right₀ _ (by norm_num : (2.65 : ℚ) ≠ 0)]
  ring

/-- C7: `water_potential_checked` fails on its `assert` guards (the
failure the spec's error taxonomy names `InvalidArgumentError`) whenever
θs ≤ 0 or the water content θ ≤ 0, and for positive arguments returns
`ψe * (θs / θ) ^ b` — the arithmetic is evaluated only after both guards
pass. -/
theorem water_potential_guards (θs ψe b θ : ℝ) :
    ((θs ≤ 0 ∨ θ ≤ 0) →
      water_potential_checked θs ψe b θ = Except.error PyError.assertionError) ∧
    (0 < θs → 0 < θ →
      water_potential_checked θs ψe b θ = Except.ok (ψe * (θs / θ) ^ b)) := by
  constructor
  · rintro (h | h) <;> unfold water_potential_checked
    · rw [if_neg (not_lt.mpr h)]
    · by_cases hs : 0 < θs
      · rw [if_pos hs, if_neg (not_lt.mpr h)]
      · rw [if_neg hs]
  · intro hs ht
    unfold water_potential_checked water_potential
    rw [if_pos hs, if_pos ht]

/-- C7 witness: the guard fires at θs = 0 and the arithmetic is returned
at θs = 1/2, θ = 1/4. -/
theorem water_potential_guards_witness :
    water_potential_checked 0 (-2) 3 (1 / 4) =
      Except.error PyError.assertionError ∧
    water_potential_checked (1 / 2) (-2) 3 (1 / 4) =
      Except.ok ((-2) * ((1 / 2) / (1 / 4)) ^ (3 : ℝ)) :=
  ⟨(water_potential_guards 0 (-2) 3 (1 / 4)).1 (Or.inl le_rfl),
   (water_potential_guards (1 / 2) (-2) 3 (1 / 4)).2 (by norm_num) (by norm_num)⟩

/-- C8 counterexample: at bulk density 3 (≥ 2.65) the source
`sat_water_content` does not fail — it has no domain guard and returns the
out-of-range value -7/53 — whereas the spec's §4.4 contract
(`sat_water_content_spec`, modelled from the spec) demands a `DomainError`
there. -/
theorem sat_water_content_unguarded :
    sat_water_content 3 = -7 / 53 ∧
    sat_water_content_spec 3 = Except.error PyError.domainError := by
  constructor
  · norm_num [sat_water_content, MIN_SOIL_PARTICLE_DENS]
  · norm_num [sat_water_content_spec, MIN_SOIL_PARTICLE_DENS]

/-- C8 (amended): `sat_water_content` returns `1 - bulk_density / 2.65`
for every bulk density, with no domain check; for bulk densities in
(0, 2.65) the result lies in (0, 1), and out-of-range inputs yield an
out-of-range number rather than an error. -/
theorem sat_water_content_range (bd : ℚ) (h0 : 0 < bd) (h1 : bd < 53 / 20) :
    sat_water_content bd = 1 - bd / (53 / 20) ∧
    0 < sat_water_content bd ∧ sat_water_content bd < 1 := by
  have he : sat_water_content bd = 1 - bd * (20 / 53) := by
    unfold sat_water_content MIN_SOIL_PARTICLE_DENS
    ring
  refine ⟨?_, ?_, ?_⟩
  · unfold sat_water_content MIN_SOIL_PARTICLE_DENS
    norm_num
  · rw [he]; linarith
  · rw [he]; linarith

/-- C8 witness: at the doctest bulk density 1.3 the saturated water
content is 27/53 ≈ 0.509, inside (0, 1). -/
theorem sat_water_content_range_witness :
    sat_water_content (13 / 10) = 1 - (13 / 10) / (53 / 20) ∧
    0 < sat_water_content (13 / 10) ∧ sat_water_content (13 / 10) < 1 :=
  sat_water_content_range (13 / 10) (by norm_num) (by norm_num)

/-- C9: for clay = 0.03, sand = 0.92, organic matter = 1.906,
`get_bulk_density` is within 1e-2 of the published value 1.43 (the exact
rational value is ≈ 1.43394). -/
theorem bulk_density_scenario :
    |get_bulk_density (3 / 100) (92 / 100) (1906 / 1000) - 143 / 100| < 1 / 100 := by
  norm_num [get_bulk_density, sat_water_content_inline, vol_water_content_33_j_kg,
    MIN_SOIL_PARTICLE_DENS, abs]

/-- C10: for every θs > 0 and arbitrary ψe and b, evaluating
`water_potential` exactly at saturation returns the air-entry potential:
the curve is anchored at (θ = θs, ψ = ψe). -/
theorem water_potential_at_saturation (θs ψe b : ℝ) (h : 0 < θs) :
    water_potential θs ψe b θs = ψe := by
  unfold water_potential
  rw [div_self h.ne', Real.one_rpow, mul_one]

/-- C10 witness: the anchor point at θs = 2, ψe = -5, b = 7. -/
theorem water_potential_at_saturation_witness :
    water_potential 2 (-5) 7 2 = -5 :=
  water_potential_at_saturation 2 (-5) 7 (by norm_num)

end Soil
